import Mathlib

/- Shallow embedding of the inventory-platform backend (Django, Python).
   Sources embedded here:
     backend/apps/accounts/roles.py, backend/apps/accounts/models.py (User helpers),
     backend/apps/inventory/models.py (ProductStore, StockMovement),
     backend/apps/inventory/serializers.py (StockMovementSerializer.validate),
     backend/apps/inventory/views.py (querysets, low_stock, update handlers),
     backend/apps/common/permissions.py (BrandScopedPermission.has_object_permission).
   Brands are identified by their primary key (a Nat); Django model equality
   compares primary keys, so Product/Store comparisons below compare ids. -/

namespace InventoryPlatform

/-- accounts/roles.py: the four user roles. -/
inductive Role where
  | SYSTEM_ADMIN
  | BRAND_MANAGER
  | STORE_MANAGER
  | STAFF
deriving DecidableEq, Repr

/-- accounts/models.py User: role plus nullable brand foreign key. -/
structure User where
  role : Role
  brand : Option Nat
deriving DecidableEq, Repr

/-- accounts/models.py: User.is_system_admin. -/
def User.is_system_admin (u : User) : Bool :=
  u.role = Role.SYSTEM_ADMIN

/-- accounts/models.py: User.get_brand returns None for system admins, else the
    (possibly null) brand. -/
def User.get_brand (u : User) : Option Nat :=
  if u.is_system_admin then none else u.brand

/-- products/models.py Product: id and brand foreign key (both primary keys). -/
structure Product where
  id : Nat
  brand : Nat
deriving DecidableEq, Repr

/-- stores/models.py Store: id and brand foreign key. -/
structure Store where
  id : Nat
  brand : Nat
deriving DecidableEq, Repr

/-- A Django ValidationError raised with a one-field dict: field name and message. -/
structure ValidationError where
  field : String
  message : String
deriving DecidableEq, Repr

/-- inventory/models.py ProductStore: stock counters for one product at one store.
    The three quantity fields are PositiveIntegerFields, hence Nat. -/
structure ProductStore where
  id : Nat
  product : Product
  store : Store
  quantity_on_hand : Nat
  reserved_quantity : Nat
  minimum_stock_level : Nat
deriving DecidableEq, Repr

/-- inventory/models.py ProductStore.available_quantity:
    max(0, quantity_on_hand - reserved_quantity), computed over Python ints. -/
def ProductStore.available_quantity (ps : ProductStore) : Int :=
  max 0 ((ps.quantity_on_hand : Int) - (ps.reserved_quantity : Int))

/-- inventory/models.py ProductStore.is_below_minimum. -/
def ProductStore.is_below_minimum (ps : ProductStore) : Bool :=
  ps.quantity_on_hand < ps.minimum_stock_level

/-- inventory/models.py ProductStore.clean (lines 48-63): same-brand check, then
    reserved-does-not-exceed-on-hand check; each raise is an early exit. -/
def ProductStore.clean (ps : ProductStore) : Except ValidationError Unit :=
  if ps.product.brand ≠ ps.store.brand then
    .error ⟨"product", "Product and Store must belong to the same brand."⟩
  else if ps.reserved_quantity > ps.quantity_on_hand then
    .error ⟨"reserved_quantity", "Reserved quantity cannot exceed quantity on hand."⟩
  else .ok ()

/-- inventory/models.py ProductStore.save (lines 65-68): clean, then persist.
    On success the persisted row is the record itself; a raise from clean
    aborts before any write. -/
def ProductStore.save (ps : ProductStore) : Except ValidationError ProductStore :=
  match ps.clean with
  | .error e => .error e
  | .ok _ => .ok ps

/-- inventory/models.py: the four movement types. -/
inductive MovementType where
  | INBOUND
  | OUTBOUND
  | TRANSFER
  | ADJUSTMENT
deriving DecidableEq, Repr

/-- inventory/models.py StockMovement: the ledger entry. The movement holds the
    live source record and the optional destination record, as the Django
    instance does through its foreign keys. -/
structure StockMovement where
  movement_type : MovementType
  quantity : Int
  product_store : ProductStore
  destination_product_store : Option ProductStore
  created_by : User
  reference_number : String
  notes : String
deriving DecidableEq, Repr

/-- inventory/models.py StockMovement.clean lines 128-153: the transfer block.
    Requires a destination, a different store (Django compares model instances
    by primary key), and the same product; each raise is an early exit. -/
def transferDestinationCheck (src : ProductStore) :
    Option ProductStore → Except ValidationError Unit
  | none =>
    .error ⟨"destination_product_store", "Transfer movements require a destination."⟩
  | some dest =>
    if src.store.id = dest.store.id then
      .error ⟨"destination_product_store", "Cannot transfer to the same store."⟩
    else if src.product.id ≠ dest.product.id then
      .error ⟨"destination_product_store", "Transfer must be for the same product."⟩
    else .ok ()

/-- inventory/models.py StockMovement.clean lines 155-164: the actor brand check.
    created_by and product_store are non-null foreign keys, so the truthiness
    guard on their ids in the source is always satisfied here. -/
def actorBrandCheck (m : StockMovement) : Except ValidationError Unit :=
  if ¬ m.created_by.is_system_admin ∧
      m.created_by.get_brand ≠ some m.product_store.product.brand then
    .error ⟨"created_by", "User must belong to the same brand as the product."⟩
  else .ok ()

/-- inventory/models.py StockMovement.clean (lines 117-164): sign-by-kind checks,
    then the transfer destination block, then the actor brand check. -/
def StockMovement.clean (m : StockMovement) : Except ValidationError Unit :=
  if m.movement_type = MovementType.INBOUND ∧ m.quantity ≤ 0 then
    .error ⟨"quantity", "Inbound movements must have positive quantity."⟩
  else if m.movement_type = MovementType.OUTBOUND ∧ m.quantity ≥ 0 then
    .error ⟨"quantity", "Outbound movements must have negative quantity."⟩
  else
    match (if m.movement_type = MovementType.TRANSFER then
             transferDestinationCheck m.product_store m.destination_product_store
           else .ok ()) with
    | .error e => .error e
    | .ok _ => actorBrandCheck m

/-- inventory/models.py StockMovement.save lines 176-186: the model-layer
    sufficiency test. Runs only for negative quantity; compares
    required = abs(quantity) against available_stock = quantity_on_hand, and
    exempts ADJUSTMENT movements. True means the ValidationError is raised. -/
def modelInsufficient (ps : ProductStore) (quantity : Int) (mt : MovementType) : Bool :=
  decide (quantity < 0) && decide (ps.quantity_on_hand < quantity.natAbs)
    && decide (¬ mt = MovementType.ADJUSTMENT)

/-- inventory/serializers.py StockMovementSerializer.validate lines 156-165: the
    serializer-layer sufficiency test. Runs only for negative quantity; compares
    required = abs(quantity) against available_quantity (on hand minus reserved,
    floored at 0). True means the ValidationError is raised. -/
def serializerInsufficient (ps : ProductStore) (quantity : Int) : Bool :=
  decide (quantity < 0) && decide (ps.available_quantity < (quantity.natAbs : Int))

/-- Observable effect of one StockMovement.save call on the database:
    whether the movement row itself was written, the resulting database state of
    the source record and of the destination record, and the ValidationError
    propagated to the caller, if any. -/
structure SaveResult where
  movement_persisted : Bool
  product_store : ProductStore
  destination_product_store : Option ProductStore
  error : Option ValidationError
deriving DecidableEq, Repr

/-- inventory/models.py StockMovement.save lines 192-199: the new on-hand value
    of the source record. old + quantity, set to 0 when negative on an
    ADJUSTMENT and floored at 0 otherwise (both branches floor at zero). -/
def clampedOnHand (ps : ProductStore) (quantity : Int) (mt : MovementType) : Nat :=
  let old_quantity : Int := ps.quantity_on_hand
  let new_quantity : Int := old_quantity + quantity
  let clamped : Int :=
    if new_quantity < 0 ∧ mt = MovementType.ADJUSTMENT then 0
    else max 0 new_quantity
  clamped.toNat

/-- inventory/models.py StockMovement.save lines 203-209: after the source
    record was saved as saved_src, a TRANSFER also credits the destination with
    abs(quantity) and saves it; its save can raise, leaving the destination row
    in its old state while the ledger row and the source stay written. -/
def applyTransferLeg (m : StockMovement) (saved_src : ProductStore) : SaveResult :=
  if m.movement_type = MovementType.TRANSFER then
    match m.destination_product_store with
    | some dest =>
      let dest_updated : ProductStore :=
        { dest with quantity_on_hand := dest.quantity_on_hand + m.quantity.natAbs }
      match dest_updated.save with
      | .error e => ⟨true, saved_src, some dest, some e⟩
      | .ok saved_dest => ⟨true, saved_src, some saved_dest, none⟩
    | none => ⟨true, saved_src, none, none⟩
  else ⟨true, saved_src, m.destination_product_store, none⟩

/-- inventory/models.py StockMovement.save lines 174-209, the is_new branch:
    the sufficiency test, then super().save() persists the ledger row, then the
    clamped source record is saved (its own clean can still raise, after the
    ledger row is already persisted), then the transfer leg runs. A record
    whose save raises keeps its old database state. -/
def applyNewMovement (m : StockMovement) : SaveResult :=
  if modelInsufficient m.product_store m.quantity m.movement_type then
    ⟨false, m.product_store, m.destination_product_store,
      some ⟨"quantity", "Insufficient stock."⟩⟩
  else
    let updated : ProductStore :=
      { m.product_store with
          quantity_on_hand := clampedOnHand m.product_store m.quantity m.movement_type }
    match updated.save with
    | .error e => ⟨true, m.product_store, m.destination_product_store, some e⟩
    | .ok saved_src => applyTransferLeg m saved_src

/-- inventory/models.py StockMovement.save (lines 166-212): clean runs first;
    a new row goes through the apply pipeline above; an existing row is
    re-saved without touching any quantity (lines 210-212). -/
def StockMovement.save (m : StockMovement) (is_new : Bool) : SaveResult :=
  match m.clean with
  | .error e => ⟨false, m.product_store, m.destination_product_store, some e⟩
  | .ok _ =>
    if is_new then applyNewMovement m
    else ⟨true, m.product_store, m.destination_product_store, none⟩

/-- inventory/serializers.py StockMovementSerializer.validate (lines 120-167):
    sign-by-kind checks, the transfer destination checks (same conditions as the
    model clean), then the sufficiency test against available_quantity. -/
def serializerValidate (m : StockMovement) : Except ValidationError Unit :=
  if m.movement_type = MovementType.INBOUND ∧ m.quantity ≤ 0 then
    .error ⟨"quantity", "Inbound movements must have positive quantity."⟩
  else if m.movement_type = MovementType.OUTBOUND ∧ m.quantity ≥ 0 then
    .error ⟨"quantity", "Outbound movements must have negative quantity."⟩
  else
    match (if m.movement_type = MovementType.TRANSFER then
             transferDestinationCheck m.product_store m.destination_product_store
           else .ok ()) with
    | .error e => .error e
    | .ok _ =>
      if serializerInsufficient m.product_store m.quantity then
        .error ⟨"quantity", "Insufficient stock."⟩
      else .ok ()

/-- inventory/views.py ProductStoreViewSet.get_queryset (lines 41-63): system
    admins see all rows; otherwise the brand filter is applied only when the
    caller's brand is non-null (the Python `if user_brand:` guard), so a
    brandless non-admin caller receives the unfiltered queryset. -/
def productStoreGetQueryset (user : User) (db : List ProductStore) : List ProductStore :=
  if user.is_system_admin then db
  else
    match user.get_brand with
    | some user_brand => db.filter (fun ps => ps.product.brand = user_brand)
    | none => db

/-- inventory/views.py ProductStoreViewSet.low_stock (lines 104-115):
    get_queryset filtered by quantity_on_hand < minimum_stock_level. -/
def productStoreLowStock (user : User) (db : List ProductStore) : List ProductStore :=
  (productStoreGetQueryset user db).filter
    (fun ps => ps.quantity_on_hand < ps.minimum_stock_level)

/-- inventory/views.py StockMovementViewSet.get_queryset (lines 151-178): same
    shape as the ProductStore queryset, filtering on the source record's
    product brand, with the same `if user_brand:` guard. -/
def stockMovementGetQueryset (user : User) (db : List StockMovement) : List StockMovement :=
  if user.is_system_admin then db
  else
    match user.get_brand with
    | some user_brand => db.filter (fun sm => sm.product_store.product.brand = user_brand)
    | none => db

/-- An HTTP-level response: status code and error code string. -/
structure ApiResponse where
  status : Nat
  code : String
deriving DecidableEq, Repr

/-- inventory/views.py StockMovementViewSet.update and its PATCH counterpart
    (lines 188-200): both unconditionally return 405 METHOD_NOT_ALLOWED and
    touch nothing, for every request; the database is returned unchanged. -/
def stockMovementViewSetUpdate (db : List StockMovement) :
    ApiResponse × List StockMovement :=
  (⟨405, "METHOD_NOT_ALLOWED"⟩, db)

/-- common/permissions.py BrandScopedPermission.has_object_permission
    (lines 153-174): admins pass; a brandless caller is denied; otherwise the
    object's resolved brand (None when the object has no brand attribute) must
    equal the caller's brand. -/
def hasObjectPermission (user : User) (objBrand : Option Nat) : Bool :=
  if user.is_system_admin then true
  else
    match user.get_brand with
    | none => false
    | some user_brand => objBrand = some user_brand

/-- The persisted-state invariant of §8 of the design: reserved never exceeds
    on-hand (non-negativity is carried by the Nat fields). -/
def productStoreInvariant (ps : ProductStore) : Prop :=
  ps.reserved_quantity ≤ ps.quantity_on_hand

/-- A system administrator actor. -/
def adminUser : User := ⟨Role.SYSTEM_ADMIN, none⟩

/-- A STAFF actor whose brand foreign key is null. -/
def staffNoBrand : User := ⟨Role.STAFF, none⟩

/-- Source record for the partial-write scenario: brand-1 product at a brand-1
    store, 100 on hand, nothing reserved. -/
def pwSource : ProductStore := ⟨1, ⟨1, 1⟩, ⟨1, 1⟩, 100, 0, 0⟩

/-- Destination record for the partial-write scenario: the same product held at
    a store of brand 2, so the destination record fails its own clean. -/
def pwDestination : ProductStore := ⟨2, ⟨1, 1⟩, ⟨2, 2⟩, 50, 0, 0⟩

/-- A transfer of 5 units into the brand-mismatched destination record. -/
def pwMovement : StockMovement :=
  ⟨MovementType.TRANSFER, -5, pwSource, some pwDestination, adminUser, "", ""⟩

/-- A brand-1 inventory record, 10 on hand. -/
def brand1Record : ProductStore := ⟨1, ⟨1, 1⟩, ⟨1, 1⟩, 10, 0, 0⟩

/-- A persisted brand-1 movement row (an inbound receipt). -/
def brand1MovementRow : StockMovement :=
  ⟨MovementType.INBOUND, 5, brand1Record, none, ⟨Role.BRAND_MANAGER, some 1⟩, "", ""⟩

/-- Source record for the positive-transfer scenario: brand 1, 100 on hand. -/
def ptSource : ProductStore := ⟨1, ⟨1, 1⟩, ⟨1, 1⟩, 100, 0, 0⟩

/-- Destination for the positive-transfer scenario: same product, another
    brand-1 store, 50 on hand. -/
def ptDestination : ProductStore := ⟨2, ⟨1, 1⟩, ⟨2, 1⟩, 50, 0, 0⟩

/-- A TRANSFER with positive quantity +10: no sign rule applies to TRANSFER and
    the sufficiency test only runs for negative quantity, so it is accepted. -/
def ptMovement : StockMovement :=
  ⟨MovementType.TRANSFER, 10, ptSource, some ptDestination, adminUser, "", ""⟩

/-- Record for the reserved-adjustment scenario: 100 on hand, 5 reserved. -/
def raRecord : ProductStore := ⟨1, ⟨1, 1⟩, ⟨1, 1⟩, 100, 5, 0⟩

/-- An ADJUSTMENT of -200 against raRecord: exempt from the sufficiency test,
    but the clamp to zero then violates reserved ≤ on-hand on the record save. -/
def raMovement : StockMovement :=
  ⟨MovementType.ADJUSTMENT, -200, raRecord, none, adminUser, "", ""⟩

/-- A brand-1 record that is below its minimum stock level (0 on hand, 5 min). -/
def lowRecord : ProductStore := ⟨1, ⟨1, 1⟩, ⟨1, 1⟩, 0, 0, 5⟩

/-- A TRANSFER with no destination record, used for the destination rules. -/
def noDestMovement : StockMovement :=
  ⟨MovementType.TRANSFER, -5, pwSource, none, adminUser, "", ""⟩

/-- Scenario C of the design: OUTBOUND -200 against 100 on hand, 0 reserved. -/
def outbound200Movement : StockMovement :=
  ⟨MovementType.OUTBOUND, -200, ⟨1, ⟨1, 1⟩, ⟨1, 1⟩, 100, 0, 0⟩, none, adminUser, "", ""⟩

/-- ADJUSTMENT -200 against 100 on hand with nothing reserved: the clamp to
    zero goes through. -/
def adjust200Movement : StockMovement :=
  ⟨MovementType.ADJUSTMENT, -200, ⟨1, ⟨1, 1⟩, ⟨1, 1⟩, 100, 0, 0⟩, none, adminUser, "", ""⟩

/-- A record with 10 on hand and 3 reserved, for the sufficiency-basis gap. -/
def reservedRecord : ProductStore := ⟨1, ⟨1, 1⟩, ⟨1, 1⟩, 10, 3, 0⟩

/- ------------------------------------------------------------------ -/
/- Helper lemmas                                                      -/
/- ------------------------------------------------------------------ -/

/-- ProductStore.clean succeeds exactly when the brands match and reserved does
    not exceed on-hand. -/
theorem productStoreClean_ok_iff (ps : ProductStore) :
    ps.clean = .ok () ↔
      ps.product.brand = ps.store.brand ∧ ps.reserved_quantity ≤ ps.quantity_on_hand := by
  unfold ProductStore.clean
  split_ifs with h1 h2 <;> simp_all

/-- A successful ProductStore.save persists the record unchanged, and only when
    it satisfies the reserved-versus-on-hand invariant. -/
theorem productStoreSave_ok (ps ps' : ProductStore) (h : ps.save = .ok ps') :
    ps' = ps ∧ productStoreInvariant ps' := by
  unfold ProductStore.save at h
  cases hc : ps.clean with
  | error e => rw [hc] at h; exact absurd h (by simp)
  | ok u =>
    rw [hc] at h
    cases h
    cases u
    exact ⟨rfl, ((productStoreClean_ok_iff ps).mp hc).2⟩

/- ------------------------------------------------------------------ -/
/- Claim theorems                                                     -/
/- ------------------------------------------------------------------ -/

/-- C1: refuted on the code. A TRANSFER whose destination record fails its own
    validation (brand-mismatched destination) still persists the ledger row and
    still decrements the source record: the movement row is inserted and the
    source drops from 100 to 95 before the destination's clean raises, so a
    rejected movement does NOT leave state exactly as before. -/
theorem rejectedTransferLeavesPartialWrites :
    (StockMovement.save pwMovement true).error
        = some ⟨"product", "Product and Store must belong to the same brand."⟩
      ∧ (StockMovement.save pwMovement true).movement_persisted = true
      ∧ (StockMovement.save pwMovement true).product_store.quantity_on_hand = 95
      ∧ pwMovement.product_store.quantity_on_hand = 100 := by
  decide

/-- C2: refuted on the code. A STAFF actor with a null brand receives the
    UNFILTERED queryset in both read endpoints (the Python `if user_brand:`
    guard skips the brand filter when the brand is null), so a brandless actor
    sees every row instead of nothing. -/
theorem brandlessActorSeesEverything :
    productStoreGetQueryset staffNoBrand [brand1Record] = [brand1Record]
      ∧ stockMovementGetQueryset staffNoBrand [brand1MovementRow] = [brand1MovementRow]
      ∧ ([brand1Record] : List ProductStore) ≠ []
      ∧ staffNoBrand.is_system_admin = false ∧ staffNoBrand.brand = none := by
  decide

/-- C3: refuted on the code. A TRANSFER with positive quantity +10 passes both
    the model clean and the serializer validation (TRANSFER has no sign rule
    and the sufficiency test only runs for negative quantity), and applying it
    ADDS 10 to the source (100 to 110) and 10 to the destination (50 to 60):
    total stock grows by 20 instead of being conserved. -/
theorem positiveTransferBreaksConservation :
    pwSource.quantity_on_hand = 100
      ∧ serializerValidate ptMovement = .ok ()
      ∧ (StockMovement.save ptMovement true).error = none
      ∧ (StockMovement.save ptMovement true).product_store.quantity_on_hand = 110
      ∧ (StockMovement.save ptMovement true).destination_product_store
          = some { ptDestination with quantity_on_hand := 60 } := by
  exact ⟨by decide, rfl, by decide, by decide, by decide⟩

/-- C9: refuted on the code. low_stock builds on get_queryset, so the brandless
    STAFF actor also receives cross-brand rows from the low-stock scan: the
    brand-1 record below its minimum is returned to an actor whose visible
    brand scope is empty. -/
theorem lowStockLeaksToBrandlessActor :
    productStoreLowStock staffNoBrand [lowRecord] = [lowRecord]
      ∧ lowRecord.product.brand = 1
      ∧ staffNoBrand.is_system_admin = false ∧ staffNoBrand.brand = none := by
  decide

/-- C5 counterexample: an ADJUSTMENT of -200 against a record with 100 on hand
    and 5 reserved is NOT accepted-and-clamped-to-zero: the clamped record
    violates reserved ≤ on-hand, its save raises OverReservation, and the call
    ends with the ledger row persisted and on-hand still 100. -/
theorem adjustmentClampBlockedByReservation :
    (StockMovement.save raMovement true).error
        = some ⟨"reserved_quantity", "Reserved quantity cannot exceed quantity on hand."⟩
      ∧ (StockMovement.save raMovement true).movement_persisted = true
      ∧ (StockMovement.save raMovement true).product_store.quantity_on_hand = 100 := by
  decide

/-- C8: a persisted movement row is immutable through the public interface:
    update and partial-update requests always get a 405 METHOD_NOT_ALLOWED
    response with the database untouched, and re-saving an existing row never
    changes any inventory record. -/
theorem movementRowsAreImmutable :
    (∀ db : List StockMovement,
        stockMovementViewSetUpdate db = (⟨405, "METHOD_NOT_ALLOWED"⟩, db))
      ∧ ∀ m : StockMovement,
          (StockMovement.save m false).product_store = m.product_store
            ∧ (StockMovement.save m false).destination_product_store
                = m.destination_product_store := by
  refine ⟨fun db => rfl, fun m => ?_⟩
  unfold StockMovement.save
  cases m.clean <;> simp

/-- C7: the model-layer sufficiency test (against on-hand) and the
    serializer-layer test (against available = on-hand minus reserved, floored
    at 0) are not equivalent: for every record with positive reserved quantity
    (and reserved ≤ on-hand, as every persisted record satisfies) there is a
    negative-quantity movement that the model layer lets through and the
    serializer layer rejects. -/
theorem sufficiencyBasesDiffer (ps : ProductStore)
    (hinv : productStoreInvariant ps) (hres : 0 < ps.reserved_quantity) :
    ∃ q : Int, q < 0
      ∧ modelInsufficient ps q MovementType.OUTBOUND = false
      ∧ serializerInsufficient ps q = true := by
  unfold productStoreInvariant at hinv
  refine ⟨-(ps.quantity_on_hand : Int), by omega, ?_, ?_⟩
  · simp only [modelInsufficient, Bool.and_eq_false_iff, decide_eq_false_iff_not]
    left
    right
    omega
  · simp only [serializerInsufficient, ProductStore.available_quantity,
      Bool.and_eq_true, decide_eq_true_eq]
    omega

/-- C7 witness: at 10 on hand and 3 reserved the two sufficiency bases differ. -/
theorem sufficiencyBasesDiffer_witness :
    ∃ q : Int, q < 0
      ∧ modelInsufficient reservedRecord q MovementType.OUTBOUND = false
      ∧ serializerInsufficient reservedRecord q = true :=
  sufficiencyBasesDiffer reservedRecord (by unfold productStoreInvariant; decide) (by decide)

/-- C10: a TRANSFER is accepted only with a non-null destination at a different
    store holding the same product. Any violation is rejected by clean with a
    ValidationError on the destination_product_store field before any write:
    nothing is persisted and both records keep their state. Conversely, a
    TRANSFER whose save reports no error satisfies all three conditions. -/
theorem transferDestinationRules (m : StockMovement)
    (hmt : m.movement_type = MovementType.TRANSFER) :
    ((m.destination_product_store = none
        ∨ ∃ d, m.destination_product_store = some d
            ∧ (d.store.id = m.product_store.store.id
                ∨ d.product.id ≠ m.product_store.product.id)) →
      ∃ e, StockMovement.save m true
            = ⟨false, m.product_store, m.destination_product_store, some e⟩
          ∧ e.field = "destination_product_store")
    ∧ ((StockMovement.save m true).error = none →
        ∃ d, m.destination_product_store = some d
          ∧ d.store.id ≠ m.product_store.store.id
          ∧ d.product.id = m.product_store.product.id) := by
  constructor
  · intro hviol
    have hchk : ∃ msg, transferDestinationCheck m.product_store m.destination_product_store
        = .error ⟨"destination_product_store", msg⟩ := by
      rcases hviol with hnone | ⟨d, hd, hbad⟩
      · exact ⟨"Transfer movements require a destination.", by rw [hnone]; rfl⟩
      · rw [hd]
        simp only [transferDestinationCheck]
        rcases hbad with hsame | hdiff
        · exact ⟨"Cannot transfer to the same store.", by rw [if_pos hsame.symm]⟩
        · split_ifs with h1 h2
          · exact ⟨"Cannot transfer to the same store.", rfl⟩
          · exact ⟨"Transfer must be for the same product.", rfl⟩
          · exact absurd (not_not.mp h2) fun h => hdiff h.symm
    obtain ⟨msg, hchk⟩ := hchk
    have hclean : m.clean = .error ⟨"destination_product_store", msg⟩ := by
      unfold StockMovement.clean
      rw [hmt]
      simp [hchk]
    refine ⟨⟨"destination_product_store", msg⟩, ?_, rfl⟩
    unfold StockMovement.save
    rw [hclean]
  · intro herr
    cases hd : m.destination_product_store with
    | none =>
      have hclean : m.clean
          = .error ⟨"destination_product_store", "Transfer movements require a destination."⟩ := by
        unfold StockMovement.clean
        rw [hmt]
        simp [hd, transferDestinationCheck]
      unfold StockMovement.save at herr
      rw [hclean] at herr
      simp at herr
    | some d =>
      by_cases hsame : d.store.id = m.product_store.store.id
      · have hclean : m.clean
            = .error ⟨"destination_product_store", "Cannot transfer to the same store."⟩ := by
          unfold StockMovement.clean
          rw [hmt]
          simp [hd, transferDestinationCheck, hsame.symm]
        unfold StockMovement.save at herr
        rw [hclean] at herr
        simp at herr
      · by_cases hprod : d.product.id = m.product_store.product.id
        · exact ⟨d, rfl, hsame, hprod⟩
        · have hclean : m.clean
              = .error ⟨"destination_product_store", "Transfer must be for the same product."⟩ := by
            unfold StockMovement.clean
            rw [hmt]
            have hs' : ¬ m.product_store.store.id = d.store.id := fun h => hsame h.symm
            have hp' : ¬ m.product_store.product.id = d.product.id := fun h => hprod h.symm
            simp [hd, transferDestinationCheck, hs', hp']
          unfold StockMovement.save at herr
          rw [hclean] at herr
          simp at herr

/-- C10 witness: a TRANSFER without a destination is rejected on the
    destination field with nothing persisted and nothing mutated. -/
theorem transferDestinationRules_witness :
    ∃ e, StockMovement.save noDestMovement true
          = ⟨false, noDestMovement.product_store,
              noDestMovement.destination_product_store, some e⟩
        ∧ e.field = "destination_product_store" :=
  (transferDestinationRules noDestMovement rfl).1 (Or.inl rfl)

/-- The transfer leg keeps whatever source record state it was handed. -/
theorem applyTransferLeg_source (m : StockMovement) (sps : ProductStore) :
    (applyTransferLeg m sps).product_store = sps := by
  by_cases ht : m.movement_type = MovementType.TRANSFER
  · cases hdest : m.destination_product_store with
    | none => simp [applyTransferLeg, ht, hdest]
    | some dest =>
      cases hsave : ProductStore.save
          { dest with quantity_on_hand := dest.quantity_on_hand + m.quantity.natAbs } with
      | error e => simp [applyTransferLeg, ht, hdest, hsave]
      | ok saved_dest => simp [applyTransferLeg, ht, hdest, hsave]
  · simp [applyTransferLeg, ht]

/-- Every destination state the transfer leg can leave behind satisfies the
    invariant, provided the incoming destination did. -/
theorem applyTransferLeg_dest (m : StockMovement) (sps : ProductStore)
    (hd : ∀ d ∈ m.destination_product_store, productStoreInvariant d) :
    ∀ d ∈ (applyTransferLeg m sps).destination_product_store, productStoreInvariant d := by
  by_cases ht : m.movement_type = MovementType.TRANSFER
  · cases hdest : m.destination_product_store with
    | none => simp [applyTransferLeg, ht, hdest]
    | some dest =>
      cases hsave : ProductStore.save
          { dest with quantity_on_hand := dest.quantity_on_hand + m.quantity.natAbs } with
      | error e =>
        intro d hdm
        simp [applyTransferLeg, ht, hdest, hsave] at hdm
        subst hdm
        exact hd dest (by rw [hdest]; rfl)
      | ok saved_dest =>
        intro d hdm
        simp [applyTransferLeg, ht, hdest, hsave] at hdm
        subst hdm
        exact (productStoreSave_ok _ _ hsave).2
  · simpa [applyTransferLeg, ht] using hd

/-- Every source record state a new-movement application can leave behind
    satisfies the invariant, provided the incoming source did. -/
theorem applyNewMovement_source (m : StockMovement)
    (hs : productStoreInvariant m.product_store) :
    productStoreInvariant (applyNewMovement m).product_store := by
  by_cases hins : modelInsufficient m.product_store m.quantity m.movement_type = true
  · simpa [applyNewMovement, hins] using hs
  · cases hsave : ProductStore.save
        { m.product_store with
            quantity_on_hand := clampedOnHand m.product_store m.quantity m.movement_type } with
    | error e => simpa [applyNewMovement, hins, hsave] using hs
    | ok saved_src =>
      have h1 : (applyNewMovement m).product_store = saved_src := by
        simp [applyNewMovement, hins, hsave, applyTransferLeg_source]
      rw [h1]
      exact (productStoreSave_ok _ _ hsave).2

/-- Every destination state a new-movement application can leave behind
    satisfies the invariant, provided the incoming destination did. -/
theorem applyNewMovement_dest (m : StockMovement)
    (hd : ∀ d ∈ m.destination_product_store, productStoreInvariant d) :
    ∀ d ∈ (applyNewMovement m).destination_product_store, productStoreInvariant d := by
  by_cases hins : modelInsufficient m.product_store m.quantity m.movement_type = true
  · simpa [applyNewMovement, hins] using hd
  · cases hsave : ProductStore.save
        { m.product_store with
            quantity_on_hand := clampedOnHand m.product_store m.quantity m.movement_type } with
    | error e => simpa [applyNewMovement, hins, hsave] using hd
    | ok saved_src =>
      have h1 : applyNewMovement m = applyTransferLeg m saved_src := by
        simp [applyNewMovement, hins, hsave]
      rw [h1]
      exact applyTransferLeg_dest m saved_src hd

/-- The clamp of lines 192-199 always computes max(0, old + quantity): the
    ADJUSTMENT branch writes 0 exactly when the max is 0. -/
theorem clampedOnHand_eq (ps : ProductStore) (q : Int) (mt : MovementType) :
    clampedOnHand ps q mt = (max 0 ((ps.quantity_on_hand : Int) + q)).toNat := by
  show (if (ps.quantity_on_hand : Int) + q < 0 ∧ mt = MovementType.ADJUSTMENT then (0 : Int)
      else max 0 ((ps.quantity_on_hand : Int) + q)).toNat
    = (max 0 ((ps.quantity_on_hand : Int) + q)).toNat
  split_ifs with h
  · have h1 := h.1
    omega
  · rfl

/-- When a new movement application reports no error, the source on-hand in the
    database equals max(0, old + quantity). -/
theorem applyNewMovement_success_onHand (m : StockMovement)
    (herr : (applyNewMovement m).error = none) :
    (applyNewMovement m).product_store.quantity_on_hand
      = (max 0 ((m.product_store.quantity_on_hand : Int) + m.quantity)).toNat := by
  by_cases hins : modelInsufficient m.product_store m.quantity m.movement_type = true
  · simp [applyNewMovement, hins] at herr
  · cases hsave : ProductStore.save
        { m.product_store with
            quantity_on_hand := clampedOnHand m.product_store m.quantity m.movement_type } with
    | error e => simp [applyNewMovement, hins, hsave] at herr
    | ok saved_src =>
      have h1 : (applyNewMovement m).product_store = saved_src := by
        simp [applyNewMovement, hins, hsave, applyTransferLeg_source]
      rw [h1]
      obtain ⟨heq, -⟩ := productStoreSave_ok _ _ hsave
      rw [heq]
      exact clampedOnHand_eq m.product_store m.quantity m.movement_type

/-- C6: the persisted-state invariant 0 ≤ reserved ≤ onHand (onHand ≥ 0 is
    carried by the Nat fields) is preserved by every movement save path, and a
    successful new-movement application sets the source on-hand to
    max(0, onHand + quantity). -/
theorem movementSavePreservesInvariant (m : StockMovement) (b : Bool)
    (hs : productStoreInvariant m.product_store)
    (hd : ∀ d ∈ m.destination_product_store, productStoreInvariant d) :
    productStoreInvariant (StockMovement.save m b).product_store
      ∧ (∀ d ∈ (StockMovement.save m b).destination_product_store, productStoreInvariant d)
      ∧ (b = true → (StockMovement.save m b).error = none →
          (StockMovement.save m b).product_store.quantity_on_hand
            = (max 0 ((m.product_store.quantity_on_hand : Int) + m.quantity)).toNat) := by
  unfold StockMovement.save
  cases hc : m.clean with
  | error e => exact ⟨hs, hd, fun _ herr => by simp at herr⟩
  | ok u =>
    cases b with
    | false => exact ⟨hs, hd, fun hb => by simp at hb⟩
    | true =>
      exact ⟨applyNewMovement_source m hs, applyNewMovement_dest m hd,
        fun _ herr => applyNewMovement_success_onHand m herr⟩

/-- C6 witness: the inbound receipt of 5 units against the brand-1 record
    preserves the invariant and lands on-hand at max(0, 10 + 5). -/
theorem movementSavePreservesInvariant_witness :
    productStoreInvariant (StockMovement.save brand1MovementRow true).product_store
      ∧ (∀ d ∈ (StockMovement.save brand1MovementRow true).destination_product_store,
          productStoreInvariant d)
      ∧ (true = true → (StockMovement.save brand1MovementRow true).error = none →
          (StockMovement.save brand1MovementRow true).product_store.quantity_on_hand
            = (max 0 ((brand1MovementRow.product_store.quantity_on_hand : Int)
                + brand1MovementRow.quantity)).toNat) :=
  movementSavePreservesInvariant brand1MovementRow true
    (by unfold productStoreInvariant; decide)
    (by intro d hdm; simp [brand1MovementRow] at hdm)

/-- C5 (amended): a new movement with quantity < 0 requiring more than the
    source on-hand quantity is rejected with InsufficientStock — no ledger row,
    no mutation — whenever kind ≠ ADJUSTMENT; an ADJUSTMENT against a record
    with zero reserved (and matching brands) is instead accepted with the
    source on-hand floor-clamped at zero. (With reserved > 0 the clamp is
    blocked by the record's own validation — see the counterexample.) -/
theorem insufficientStockOutcomes (m : StockMovement)
    (hclean : m.clean = .ok ())
    (hneg : m.quantity < 0)
    (hinsuf : m.product_store.quantity_on_hand < m.quantity.natAbs) :
    (¬ m.movement_type = MovementType.ADJUSTMENT →
      StockMovement.save m true
        = ⟨false, m.product_store, m.destination_product_store,
            some ⟨"quantity", "Insufficient stock."⟩⟩)
    ∧ (m.movement_type = MovementType.ADJUSTMENT →
        m.product_store.reserved_quantity = 0 →
        m.product_store.product.brand = m.product_store.store.brand →
        StockMovement.save m true
          = ⟨true, { m.product_store with quantity_on_hand := 0 },
              m.destination_product_store, none⟩) := by
  constructor
  · intro hmt
    have hins : modelInsufficient m.product_store m.quantity m.movement_type = true := by
      simp [modelInsufficient, hneg, hinsuf, hmt]
    unfold StockMovement.save
    rw [hclean]
    show applyNewMovement m = _
    simp [applyNewMovement, hins]
  · intro hmt hres hbrand
    have hins : modelInsufficient m.product_store m.quantity m.movement_type = false := by
      simp [modelInsufficient, hmt]
    have hclamp : clampedOnHand m.product_store m.quantity m.movement_type = 0 := by
      rw [clampedOnHand_eq]
      omega
    have hupdated : ProductStore.save { m.product_store with quantity_on_hand := 0 }
        = .ok { m.product_store with quantity_on_hand := 0 } := by
      unfold ProductStore.save
      have hcl : ({ m.product_store with quantity_on_hand := 0 } : ProductStore).clean
          = .ok () :=
        (productStoreClean_ok_iff _).mpr ⟨hbrand, by simp [hres]⟩
      rw [hcl]
    have hmt' : ¬ m.movement_type = MovementType.TRANSFER := by
      rw [hmt]
      simp
    unfold StockMovement.save
    rw [hclean]
    show applyNewMovement m = _
    simp [applyNewMovement, hins, hclamp, hupdated, applyTransferLeg, hmt']

/-- C5 witness: OUTBOUND -200 against 100 on hand (scenario C) is rejected with
    the insufficient-stock error and the record is untouched, while ADJUSTMENT
    -200 against 100 on hand with 0 reserved is accepted and clamped to zero. -/
theorem insufficientStockOutcomes_witness :
    StockMovement.save outbound200Movement true
        = ⟨false, outbound200Movement.product_store,
            outbound200Movement.destination_product_store,
            some ⟨"quantity", "Insufficient stock."⟩⟩
    ∧ StockMovement.save adjust200Movement true
        = ⟨true, { adjust200Movement.product_store with quantity_on_hand := 0 },
            adjust200Movement.destination_product_store, none⟩ :=
  ⟨(insufficientStockOutcomes outbound200Movement rfl (by decide) (by decide)).1
      (by decide),
   (insufficientStockOutcomes adjust200Movement rfl (by decide) (by decide)).2
      rfl (by decide) (by decide)⟩

/-- C4: a positive-quantity TRANSFER that satisfies the destination checks and
    the actor brand check passes both validation layers (TRANSFER has no sign
    rule, and the sufficiency test only runs for negative quantity), and
    applying it ADDS the quantity to the source and to the destination: total
    on-hand across the two records grows by two times the quantity. -/
theorem positiveTransferDoubleCredits (q : Int) (src dst : ProductStore) (u : User)
    (hq : 0 < q)
    (hstore : ¬ src.store.id = dst.store.id)
    (hprod : src.product.id = dst.product.id)
    (hactor : u.is_system_admin = true ∨ u.get_brand = some src.product.brand)
    (hsrc : src.clean = .ok ()) (hdst : dst.clean = .ok ()) :
    StockMovement.clean ⟨MovementType.TRANSFER, q, src, some dst, u, "", ""⟩ = .ok ()
    ∧ serializerValidate ⟨MovementType.TRANSFER, q, src, some dst, u, "", ""⟩ = .ok ()
    ∧ StockMovement.save ⟨MovementType.TRANSFER, q, src, some dst, u, "", ""⟩ true
        = ⟨true, { src with quantity_on_hand := src.quantity_on_hand + q.toNat },
            some { dst with quantity_on_hand := dst.quantity_on_hand + q.toNat }, none⟩
    ∧ (src.quantity_on_hand + q.toNat) + (dst.quantity_on_hand + q.toNat)
        = (src.quantity_on_hand + dst.quantity_on_hand) + 2 * q.toNat := by
  obtain ⟨hsb, hsr⟩ := (productStoreClean_ok_iff src).mp hsrc
  obtain ⟨hdb, hdr⟩ := (productStoreClean_ok_iff dst).mp hdst
  have hq' : ¬ q < 0 := by omega
  have hchk : transferDestinationCheck src (some dst) = .ok () := by
    simp [transferDestinationCheck, hstore, hprod]
  have habc : actorBrandCheck ⟨MovementType.TRANSFER, q, src, some dst, u, "", ""⟩
      = .ok () := by
    rcases hactor with h | h <;> simp [actorBrandCheck, h]
  have hclean : StockMovement.clean ⟨MovementType.TRANSFER, q, src, some dst, u, "", ""⟩
      = .ok () := by
    simp [StockMovement.clean, hchk, habc]
  have hser : serializerInsufficient src q = false := by
    simp [serializerInsufficient, hq']
  have hserval : serializerValidate ⟨MovementType.TRANSFER, q, src, some dst, u, "", ""⟩
      = .ok () := by
    simp [serializerValidate, hchk, hser]
  have hins : modelInsufficient src q MovementType.TRANSFER = false := by
    simp [modelInsufficient, hq']
  have hclampval : clampedOnHand src q MovementType.TRANSFER
      = src.quantity_on_hand + q.toNat := by
    rw [clampedOnHand_eq]
    omega
  have hupd : ProductStore.save
      { src with quantity_on_hand := src.quantity_on_hand + q.toNat }
      = .ok { src with quantity_on_hand := src.quantity_on_hand + q.toNat } := by
    unfold ProductStore.save
    have hcl : ({ src with quantity_on_hand := src.quantity_on_hand + q.toNat }
        : ProductStore).clean = .ok () :=
      (productStoreClean_ok_iff _).mpr ⟨hsb, by simp; omega⟩
    rw [hcl]
  have hna : q.natAbs = q.toNat := by omega
  have hddst : ProductStore.save
      { dst with quantity_on_hand := dst.quantity_on_hand + q.natAbs }
      = .ok { dst with quantity_on_hand := dst.quantity_on_hand + q.toNat } := by
    rw [hna]
    unfold ProductStore.save
    have hcl : ({ dst with quantity_on_hand := dst.quantity_on_hand + q.toNat }
        : ProductStore).clean = .ok () :=
      (productStoreClean_ok_iff _).mpr ⟨hdb, by simp; omega⟩
    rw [hcl]
  refine ⟨hclean, hserval, ?_, by omega⟩
  unfold StockMovement.save
  rw [hclean]
  show applyNewMovement ⟨MovementType.TRANSFER, q, src, some dst, u, "", ""⟩ = _
  simp [applyNewMovement, hins, hclampval, hupd, applyTransferLeg, hddst]

/-- C4 witness: TRANSFER +10 from 100 on hand to 50 on hand lands at 110 and
    60: total stock grows by 20. -/
theorem positiveTransferDoubleCredits_witness :
    StockMovement.clean
        ⟨MovementType.TRANSFER, 10, ptSource, some ptDestination, adminUser, "", ""⟩ = .ok ()
    ∧ serializerValidate
        ⟨MovementType.TRANSFER, 10, ptSource, some ptDestination, adminUser, "", ""⟩ = .ok ()
    ∧ StockMovement.save
        ⟨MovementType.TRANSFER, 10, ptSource, some ptDestination, adminUser, "", ""⟩ true
        = ⟨true, { ptSource with
              quantity_on_hand := ptSource.quantity_on_hand + (10 : Int).toNat },
            some { ptDestination with
              quantity_on_hand := ptDestination.quantity_on_hand + (10 : Int).toNat },
            none⟩
    ∧ (ptSource.quantity_on_hand + (10 : Int).toNat)
        + (ptDestination.quantity_on_hand + (10 : Int).toNat)
        = (ptSource.quantity_on_hand + ptDestination.quantity_on_hand)
            + 2 * (10 : Int).toNat :=
  positiveTransferDoubleCredits 10 ptSource ptDestination adminUser (by decide) (by decide)
    (by decide) (Or.inl (by decide)) rfl rfl

end InventoryPlatform
